import Mathlib

/-!
Verification of the session & resilient API-access layer of the
policycheck dashboard client: the shared HTTP client's interceptors,
the auth context provider, the list-response normalization of the
documents and audit resource clients, and the crawl job poller.
Each definition is a shallow embedding of the corresponding
TypeScript source.
-/

namespace PolicyCheck

/-- A uniform error carried by a rejected HTTP call.  `status` is
`error.response?.status`: it is `none` for pure network failures where
no response exists. -/
structure ApiError where
  status : Option Nat
  detail : String
deriving DecidableEq, Repr

/-- The credential store (browser `localStorage`): the `access_token`
key and the `user` key (a serialized user record).  `none` models an
absent key. -/
structure CredStore where
  token : Option String
  user : Option String
deriving DecidableEq, Repr

/-- JavaScript truthiness of a string: only the empty string is falsy. -/
def jsTruthyStr (s : String) : Bool := s ≠ ""

/-- JavaScript `a || b` for an optional integer field: `undefined`,
`null` and `0` fall through to the default; any other value (including
a negative one) is kept. -/
def jsOrInt : Option Int → Int → Int
  | none, b => b
  | some v, b => if v = 0 then b else v

/-! ## HTTP Client Core (src/frontend/src/api/client.ts)

The response interceptor's error branch, lines 34-44: on a 401 it
removes `access_token` and `user` from the store and, when the current
`window.location.pathname` does not start with `/login`, navigates to
`/login`; in every case it returns `Promise.reject(error)`.  The
embedding returns the updated store, the navigation target (if any),
and the error rejected to the caller. -/

def responseErrorInterceptor (error : ApiError) (store : CredStore) (path : String) :
    CredStore × Option String × ApiError :=
  if error.status = some 401 then
    ({ token := none, user := none },
     if ¬ path.startsWith "/login" then some "/login" else none,
     error)
  else
    (store, none, error)

/-- The five typed resource clients.  Every one of their modules
imports the single shared axios `client` from `./client`, so every
request they issue passes through the same pair of interceptors. -/
inductive ResourceClient
  | auth | documents | crawl | stats | audit
deriving DecidableEq, Repr

/-- The response-error interceptor a given resource client's requests
run through: all five share the one `client` instance. -/
def interceptorOf (_ : ResourceClient) :
    ApiError → CredStore → String → CredStore × Option String × ApiError :=
  responseErrorInterceptor

/-! ## Session Controller (AuthProvider, src/.../context/AuthContext.tsx)

The provider keeps `user` (a user record, modelled by its serialized
JSON string) and `token` in component state.  `isAuthenticated` is the
derived expression `!!user && !!token`: a user record object is always
truthy, a token string is truthy iff non-empty. -/

/-- The AuthProvider's component state: `user` and `token`, both
initially `null`. -/
structure AuthState where
  user : Option String
  token : Option String
deriving DecidableEq, Repr

/-- `isAuthenticated = !!user && !!token` (AuthContext line 70). -/
def isAuthenticated (s : AuthState) : Bool :=
  s.user.isSome && (match s.token with
    | some t => jsTruthyStr t
    | none => false)

/-- The boot effect (AuthContext lines 26-37): read `user` and
`access_token` from the store; each is adopted only when truthy (a
stored empty string is skipped by the `if (storedUser)` /
`if (storedToken)` guards). -/
def boot (store : CredStore) : AuthState :=
  { user := match store.user with
      | some s => if jsTruthyStr s then some s else none
      | none => none
    token := match store.token with
      | some s => if jsTruthyStr s then some s else none
      | none => none }

/-- The payload of a successful `POST /api/auth/login`: the bearer
token and the user record (kept as its serialized form). -/
structure LoginResponse where
  access_token : String
  token_type : String
  userJson : String
deriving DecidableEq, Repr

/-- `AuthProvider.login` (AuthContext lines 39-56) given the outcome of
`authApi.login`: on success it writes `access_token` and `user` to the
store and sets both state fields; on failure nothing after the `await`
runs, so store and state are untouched and the error propagates.
Returns the new store, the new state, and the caller-visible result. -/
def login (store : CredStore) (s : AuthState) (result : Except ApiError LoginResponse) :
    CredStore × AuthState × Except ApiError Unit :=
  match result with
  | .error e => (store, s, .error e)
  | .ok r =>
    ({ token := some r.access_token, user := some r.userJson },
     { user := some r.userJson, token := some r.access_token },
     .ok ())

/-- `AuthProvider.logout` (AuthContext lines 58-63): remove both store
keys, null both state fields. -/
def logout (_store : CredStore) (_s : AuthState) : CredStore × AuthState :=
  ({ token := none, user := none }, { user := none, token := none })

/-! ## Resource Clients: list normalization
(src/frontend/src/api/documents.ts, src/frontend/src/api/audit.ts)

Each client call is modelled as a function of the transport outcome of
its HTTP request: `.ok` carries the (possibly partial) parsed server
payload, `.error` is a rejected promise — a network failure, a non-2xx
status, or (per §4.4/§7 of the design, which groups malformed response
bodies with transport failures at the HTTP boundary) an unparseable
body. -/

/-- A discovered document record; only its identity matters to the
normalization layer. -/
structure Doc where
  id : Int
deriving DecidableEq, Repr

/-- The `DocumentFilters` accepted by `getDocuments`.  Only `page` and
`limit` take part in response normalization; the remaining fields
(including the float-valued `min_confidence`, omitted here) only feed
the query string. -/
structure DocumentFilters where
  status : Option String := none
  classification : Option String := none
  country : Option String := none
  skip : Option Int := none
  limit : Option Int := none
  page : Option Int := none
  search : Option String := none
  crawl_session_id : Option Int := none
deriving DecidableEq, Repr

/-- The fields of the `GET /api/documents` server payload that the
normalization reads; each may be absent. -/
structure ServerDocData where
  documents : Option (List Doc) := none
  total : Option Int := none
  limit : Option Int := none
  offset : Option Int := none
  has_more : Option Bool := none
deriving DecidableEq, Repr

/-- The normalized `DocumentListResponse` envelope. -/
structure DocumentListResponse where
  documents : List Doc
  total : Int
  limit : Int
  offset : Int
  has_more : Bool
  items : List Doc
  pages : Int
  page : Int
  page_size : Int
deriving DecidableEq, Repr

/-- `EMPTY_RESPONSE` of documents.ts lines 32-42. -/
def EMPTY_RESPONSE : DocumentListResponse :=
  { documents := []
    total := 0
    limit := 20
    offset := 0
    has_more := false
    items := []
    pages := 1
    page := 1
    page_size := 20 }

/-- `Math.ceil(a / b)` on integers, for a nonzero divisor (every call
site guarantees `b ≠ 0`): the ceiling of the real quotient, written
through flooring division. -/
def mathCeilDiv (a b : Int) : Int :=
  if b = 0 then 0 else -((-a).fdiv b)

/-- `documentsApi.getDocuments` (documents.ts lines 45-71) as a
function of the filters and the transport outcome.  The success branch
follows lines 54-67: `data.documents || []`, `data.total || 0`,
`data.limit || filters.limit || 20`, and the returned object spreads
`EMPTY_RESPONSE` then `data` before the explicitly computed fields, so
`limit`/`offset`/`has_more` come from the payload when present (any
value, truthiness not consulted) and from the defaults otherwise.  The
catch branch (lines 68-70) returns `EMPTY_RESPONSE`. -/
def getDocuments (filters : DocumentFilters) (resp : Except ApiError ServerDocData) :
    DocumentListResponse :=
  match resp with
  | .error _ => EMPTY_RESPONSE
  | .ok data =>
    let docs := data.documents.getD []
    let total := jsOrInt data.total 0
    let limit := jsOrInt data.limit (jsOrInt filters.limit 20)
    { documents := docs
      total := total
      limit := data.limit.getD EMPTY_RESPONSE.limit
      offset := data.offset.getD EMPTY_RESPONSE.offset
      has_more := data.has_more.getD EMPTY_RESPONSE.has_more
      items := docs
      pages := jsOrInt (some (mathCeilDiv total limit)) 1
      page := jsOrInt filters.page 1
      page_size := limit }

/-- An audit-log entry; only its identity matters here. -/
structure AuditEntry where
  id : Int
deriving DecidableEq, Repr

/-- The `AuditLogFilters` accepted by `getAuditLog`; all of them only
feed the query string. -/
structure AuditLogFilters where
  user_id : Option Int := none
  document_id : Option Int := none
  action : Option String := none
  skip : Option Int := none
  limit : Option Int := none
deriving DecidableEq, Repr

/-- The fields of the `GET /api/audit-log` server payload; each may be
absent. -/
structure ServerAuditData where
  entries : Option (List AuditEntry) := none
  total : Option Int := none
  page : Option Int := none
  page_size : Option Int := none
deriving DecidableEq, Repr

/-- The normalized `AuditLogListResponse` envelope. -/
structure AuditLogListResponse where
  entries : List AuditEntry
  total : Int
  page : Int
  page_size : Int
deriving DecidableEq, Repr

/-- `EMPTY_RESPONSE` of audit.ts lines 22-27 (named apart to keep both
modules' constants in one namespace). -/
def AUDIT_EMPTY_RESPONSE : AuditLogListResponse :=
  { entries := []
    total := 0
    page := 1
    page_size := 50 }

/-- `auditApi.getAuditLog` (audit.ts lines 30-43).  The success branch
is the spread `{...EMPTY_RESPONSE, ...response.data}`: a field present
in the payload overrides the default whatever its value; the catch
branch returns the module defaults.  The filters only shape the query
string. -/
def getAuditLog (_filters : AuditLogFilters) (resp : Except ApiError ServerAuditData) :
    AuditLogListResponse :=
  match resp with
  | .error _ => AUDIT_EMPTY_RESPONSE
  | .ok d =>
    { entries := d.entries.getD AUDIT_EMPTY_RESPONSE.entries
      total := d.total.getD AUDIT_EMPTY_RESPONSE.total
      page := d.page.getD AUDIT_EMPTY_RESPONSE.page
      page_size := d.page_size.getD AUDIT_EMPTY_RESPONSE.page_size }

/-- An axios response wrapper; the detail/mutating operations below
return `response.data`. -/
structure AxiosResponse (α : Type) where
  data : α
deriving DecidableEq, Repr

/-- `documentsApi.getDocument` (documents.ts lines 73-76): no
try/catch, so a rejected transport outcome propagates. -/
def getDocument (resp : Except ApiError (AxiosResponse Doc)) : Except ApiError Doc :=
  resp.map AxiosResponse.data

/-- `documentsApi.approveDocument` (documents.ts lines 78-81): no
try/catch, so a rejected transport outcome propagates. -/
def approveDocument (resp : Except ApiError (AxiosResponse Doc)) : Except ApiError Doc :=
  resp.map AxiosResponse.data

/-- `documentsApi.deleteDocument` (documents.ts lines 91-93): no
try/catch, so a rejected transport outcome propagates. -/
def deleteDocument (resp : Except ApiError (AxiosResponse Unit)) : Except ApiError Unit :=
  resp.map fun _ => ()

/-- The payload of `POST /api/crawl/start`. -/
structure Crawl where
  crawl_id : Int
deriving DecidableEq, Repr

/-- `crawlApi.startCrawl`: no try/catch, so a rejected transport
outcome propagates. -/
def startCrawl (resp : Except ApiError (AxiosResponse Crawl)) : Except ApiError Crawl :=
  resp.map AxiosResponse.data

/-! ## Job Poller (`pollStatus` of the crawl page, src/unnamed/part_007
lines 58-72; the Progress page at src/frontend/src/pages/Progress.tsx
lines 14-35 runs the identical interval-callback body)

The poller is embedded as a small-step event system over the
single-threaded JS event loop.  Suspension points are exactly the ones
of the source: a `setInterval` callback starting (it synchronously
issues the status fetch, then suspends on `await`), and a pending
fetch settling.  `clearInterval` removes a handle from the set of live
intervals, so a cleared interval can never fire again; a fetch already
issued, however, stays pending and its continuation still runs when it
settles — exactly the code's `.then`/`await` continuations. -/

/-- Crawl job status values. -/
inductive JobStatus
  | queued | running | completed | failed | stopped
deriving DecidableEq, Repr

/-- The terminal statuses tested on line 65:
`completed || failed || stopped`. -/
def JobStatus.isTerminal : JobStatus → Bool
  | .completed => true
  | .failed => true
  | .stopped => true
  | .queued => false
  | .running => false

/-- A crawl-status snapshot as consumed by the poller; only the fields
the poller logic reads are carried. -/
structure CrawlStatusResponse where
  id : Nat
  status : JobStatus
deriving DecidableEq, Repr

/-- The poller's runtime state: `pollRef` is the React ref holding the
latest interval handle (the code never nulls it), `active` the live
(not yet cleared) intervals with the crawl id their callback closes
over, `inflightFirst`/`inflightTick` the pending immediate and
interval-tick fetches keyed by a fresh token, `snapshot` the
`crawlStatus` component state, and `fetchCount` the number of
`getCrawlStatus` calls issued so far. -/
structure PollerState where
  pollRef : Option Nat := none
  active : List (Nat × Nat) := []
  nextHandle : Nat := 0
  nextToken : Nat := 0
  inflightFirst : List (Nat × Nat) := []
  inflightTick : List (Nat × Nat) := []
  snapshot : Option CrawlStatusResponse := none
  fetchCount : Nat := 0
deriving DecidableEq, Repr

/-- `clearInterval(h)`: the handle stops being live; clearing a stale
or already-cleared handle is a no-op (and never throws). -/
def clearInterval (h : Nat) (a : List (Nat × Nat)) : List (Nat × Nat) :=
  a.filter (fun p => p.1 ≠ h)

/-- `if (pollRef.current) clearInterval(pollRef.current)` — the guard
pattern used on lines 60, 66, 69 and in the effect cleanup. -/
def clearCurrent (s : PollerState) : List (Nat × Nat) :=
  match s.pollRef with
  | some h => clearInterval h s.active
  | none => s.active

/-- The events of one poller instance: `start cid` is a `pollStatus
(cid)` call; `fire h cid` is the live interval `(h, cid)` firing its
callback; `firstOk`/`firstFail` are the immediate fetch `(tok, cid)`
fulfilling with a response or rejecting with a transport failure, and
`tickOk`/`tickFail` the same for an interval-tick fetch; `cleanup` is
the owning view's effect cleanup.  Each event names the crawl id its
closure captured; an event whose handle or token is not live/pending
cannot occur and is a no-op. -/
inductive PollEvent
  | start (crawlId : Nat)
  | fire (h : Nat) (crawlId : Nat)
  | firstOk (tok : Nat) (crawlId : Nat) (resp : CrawlStatusResponse)
  | firstFail (tok : Nat) (crawlId : Nat)
  | tickOk (tok : Nat) (crawlId : Nat) (resp : CrawlStatusResponse)
  | tickFail (tok : Nat) (crawlId : Nat)
  | cleanup
deriving DecidableEq, Repr

/-- Whether an event is a `pollStatus` call. -/
def PollEvent.isStart : PollEvent → Bool
  | .start _ => true
  | _ => false

/-- One synchronous step of the poller.
`start` follows lines 58-72: issue the immediate fetch (whose
continuation is `.then(setCrawlStatus).catch(() => {})`), clear the
current interval if the ref holds one, and register a fresh repeating
interval for the new crawl id.
`fire` runs a live interval's callback up to its `await`: the fetch is
issued and becomes a pending tick; a cleared handle never fires.
`firstOk`/`firstFail` run the immediate fetch's continuation: store
the snapshot on success, swallow the error on failure.
`tickOk`/`tickFail` run the interval callback's continuation, lines
63-70: on success `setCrawlStatus(status)`, then if the status is
terminal clear the current interval; on failure (`catch`) clear the
current interval and leave the snapshot alone.
`cleanup` clears the current interval if the ref holds one. -/
def step (s : PollerState) : PollEvent → PollerState
  | .start cid =>
    { s with
      fetchCount := s.fetchCount + 1
      inflightFirst := (s.nextToken, cid) :: s.inflightFirst
      nextToken := s.nextToken + 1
      active := (s.nextHandle, cid) :: clearCurrent s
      pollRef := some s.nextHandle
      nextHandle := s.nextHandle + 1 }
  | .fire h cid =>
    if (h, cid) ∈ s.active then
      { s with
        fetchCount := s.fetchCount + 1
        inflightTick := (s.nextToken, cid) :: s.inflightTick
        nextToken := s.nextToken + 1 }
    else s
  | .firstOk tok cid resp =>
    if (tok, cid) ∈ s.inflightFirst then
      { s with inflightFirst := s.inflightFirst.filter (fun p => p.1 ≠ tok),
               snapshot := some resp }
    else s
  | .firstFail tok cid =>
    if (tok, cid) ∈ s.inflightFirst then
      { s with inflightFirst := s.inflightFirst.filter (fun p => p.1 ≠ tok) }
    else s
  | .tickOk tok cid resp =>
    if (tok, cid) ∈ s.inflightTick then
      if resp.status.isTerminal then
        { s with inflightTick := s.inflightTick.filter (fun p => p.1 ≠ tok),
                 snapshot := some resp,
                 active := clearCurrent s }
      else
        { s with inflightTick := s.inflightTick.filter (fun p => p.1 ≠ tok),
                 snapshot := some resp }
    else s
  | .tickFail tok cid =>
    if (tok, cid) ∈ s.inflightTick then
      { s with inflightTick := s.inflightTick.filter (fun p => p.1 ≠ tok),
               active := clearCurrent s }
    else s
  | .cleanup =>
    { s with active := clearCurrent s }

/-- The poller state after a sequence of events. -/
def run (s : PollerState) : List PollEvent → PollerState
  | [] => s
  | e :: es => run (step s e) es

/-- The state of a freshly mounted page: null ref, no live interval,
nothing in flight, no snapshot, no fetch issued. -/
def initPoller : PollerState := {}

/-- The handle invariant of the poller: every live interval is the one
the ref currently holds (the code clears the previous interval before
registering a new one, so at most the referenced interval is ever
live). -/
def RefInv (s : PollerState) : Prop :=
  ∀ p ∈ s.active, s.pollRef = some p.1

end PolicyCheck

namespace PolicyCheck

/-- Claim C1: for every response whose error status is 401, the shared
response interceptor — used by all five resource clients — removes both
the token and the cached user from the credential store, redirects to
the login view exactly when the current location is not already the
login view, and rejects with the original error. -/
theorem C1_unauthorized_clears_store_and_redirects
    (rc : ResourceClient) (error : ApiError) (store : CredStore) (path : String)
    (h : error.status = some 401) :
    (interceptorOf rc error store path).1.token = none ∧
    (interceptorOf rc error store path).1.user = none ∧
    ((interceptorOf rc error store path).2.1 = some "/login" ↔
      ¬ (path.startsWith "/login") = true) ∧
    (interceptorOf rc error store path).2.2 = error := by
  simp only [interceptorOf, responseErrorInterceptor, h, if_pos rfl]
  constructor
  · rfl
  constructor
  · rfl
  constructor
  · by_cases hp : path.startsWith "/login" = true
    · simp [hp]
    · simp [hp]
  · rfl

/-- Witness for C1 at a concrete 401 from the documents client on a
non-login path. -/
theorem C1_unauthorized_clears_store_and_redirects_witness :
    (interceptorOf .documents ⟨some 401, "Unauthorized"⟩
        ⟨some "tok", some "u"⟩ "/library").1.token = none ∧
    (interceptorOf .documents ⟨some 401, "Unauthorized"⟩
        ⟨some "tok", some "u"⟩ "/library").1.user = none ∧
    ((interceptorOf .documents ⟨some 401, "Unauthorized"⟩
        ⟨some "tok", some "u"⟩ "/library").2.1 = some "/login" ↔
      ¬ ("/library".startsWith "/login") = true) ∧
    (interceptorOf .documents ⟨some 401, "Unauthorized"⟩
        ⟨some "tok", some "u"⟩ "/library").2.2 = ⟨some 401, "Unauthorized"⟩ :=
  C1_unauthorized_clears_store_and_redirects .documents
    ⟨some 401, "Unauthorized"⟩ ⟨some "tok", some "u"⟩ "/library" rfl

/-- Claim C10: for every error response whose status is not 401, the
interceptor leaves the credential store unchanged, performs no
navigation, and rejects with the original error unchanged. -/
theorem C10_non401_is_frame
    (rc : ResourceClient) (error : ApiError) (store : CredStore) (path : String)
    (h : error.status ≠ some 401) :
    interceptorOf rc error store path = (store, none, error) := by
  simp [interceptorOf, responseErrorInterceptor, h]

/-- Witness for C10 at a concrete 500 error. -/
theorem C10_non401_is_frame_witness :
    interceptorOf .crawl ⟨some 500, "boom"⟩ ⟨some "tok", some "u"⟩ "/crawl"
      = (⟨some "tok", some "u"⟩, none, ⟨some 500, "boom"⟩) :=
  C10_non401_is_frame .crawl ⟨some 500, "boom"⟩ ⟨some "tok", some "u"⟩ "/crawl"
    (by decide)

/-- Claim C5: for every login call: on success (with a genuine,
non-empty bearer token) both the token and the user record are
persisted to the credential store and the session becomes
Authenticated, in one logical step with no partially-written final
state; on failure the session state and the store are unchanged and
the error is rethrown. -/
theorem C5_login_success_and_failure
    (store : CredStore) (s : AuthState) (r : LoginResponse) (e : ApiError)
    (htok : r.access_token ≠ "") :
    (login store s (.ok r)).1 = { token := some r.access_token, user := some r.userJson } ∧
    (login store s (.ok r)).2.1 = { user := some r.userJson, token := some r.access_token } ∧
    isAuthenticated (login store s (.ok r)).2.1 = true ∧
    (login store s (.ok r)).2.2 = .ok () ∧
    login store s (.error e) = (store, s, .error e) := by
  refine ⟨rfl, rfl, ?_, rfl, rfl⟩
  simp [login, isAuthenticated, jsTruthyStr, htok]

/-- Witness for C5 at a concrete successful and a concrete failed
login. -/
theorem C5_login_success_and_failure_witness :
    (login ⟨none, none⟩ ⟨none, none⟩ (.ok ⟨"tok", "bearer", "{}"⟩)).1
        = { token := some "tok", user := some "{}" } ∧
    (login ⟨none, none⟩ ⟨none, none⟩ (.ok ⟨"tok", "bearer", "{}"⟩)).2.1
        = { user := some "{}", token := some "tok" } ∧
    isAuthenticated (login ⟨none, none⟩ ⟨none, none⟩ (.ok ⟨"tok", "bearer", "{}"⟩)).2.1 = true ∧
    (login ⟨none, none⟩ ⟨none, none⟩ (.ok ⟨"tok", "bearer", "{}"⟩)).2.2 = .ok () ∧
    login ⟨none, none⟩ ⟨none, none⟩ (.error ⟨some 401, "bad"⟩)
        = (⟨none, none⟩, ⟨none, none⟩, .error ⟨some 401, "bad"⟩) :=
  C5_login_success_and_failure ⟨none, none⟩ ⟨none, none⟩ ⟨"tok", "bearer", "{}"⟩
    ⟨some 401, "bad"⟩ (by decide)

/-- Claim C6: `isAuthenticated` is true exactly when both a (truthy)
token and a user record are present; it is false after boot from an
empty store, false after `logout`, true immediately after a successful
login (with a non-empty token), and no state with only one of the two
set reads true. -/
theorem C6_isAuthenticated_iff_both_present :
    (∀ s : AuthState, isAuthenticated s = true ↔
        (s.user.isSome = true ∧ ∃ t, s.token = some t ∧ t ≠ "")) ∧
    isAuthenticated (boot ⟨none, none⟩) = false ∧
    (∀ store s, isAuthenticated (logout store s).2 = false) ∧
    (∀ store s r, r.access_token ≠ "" →
        isAuthenticated (login store s (.ok r)).2.1 = true) ∧
    (∀ s : AuthState, s.user = none ∨ s.token = none → isAuthenticated s = false) := by
  refine ⟨?_, rfl, fun _ _ => rfl, ?_, ?_⟩
  · intro s
    cases s with
    | mk u t =>
      cases u <;> cases t <;> simp [isAuthenticated, jsTruthyStr]
  · intro store s r h
    simp [login, isAuthenticated, jsTruthyStr, h]
  · intro s h
    cases s with
    | mk u t =>
      rcases h with h | h <;> subst h <;> simp [isAuthenticated]

/-- Witness for C6: the successful-login conjunct at a concrete
non-empty token. -/
theorem C6_isAuthenticated_iff_both_present_witness :
    isAuthenticated (login ⟨none, none⟩ ⟨none, none⟩ (.ok ⟨"tok", "bearer", "{}"⟩)).2.1 = true :=
  C6_isAuthenticated_iff_both_present.2.2.2.1 ⟨none, none⟩ ⟨none, none⟩
    ⟨"tok", "bearer", "{}"⟩ (by decide)

/-- The `Math.ceil(total / limit) || 1` expression, for a nonnegative
total and a positive limit, is at least 1 and is the least page count
whose pages cover `total`. -/
theorem jsPages_bounds (t l : Int) (ht : 0 ≤ t) (hl : 0 < l) :
    1 ≤ jsOrInt (some (mathCeilDiv t l)) 1 ∧
    t ≤ l * jsOrInt (some (mathCeilDiv t l)) 1 ∧
    l * (jsOrInt (some (mathCeilDiv t l)) 1 - 1) < max t 1 := by
  have hlne : l ≠ 0 := by omega
  have hfd : (-t).fdiv l = (-t) / l := Int.fdiv_eq_ediv _ (le_of_lt hl)
  have h1 : l * ((-t) / l) + (-t) % l = -t := Int.ediv_add_emod (-t) l
  have h2 : 0 ≤ (-t) % l := Int.emod_nonneg (-t) hlne
  have h3 : (-t) % l < l := Int.emod_lt_of_pos (-t) hl
  have hmaxr : (1 : Int) ≤ max t 1 := le_max_right t 1
  have hmaxl : t ≤ max t 1 := le_max_left t 1
  simp only [jsOrInt, mathCeilDiv, if_neg hlne, hfd]
  generalize hq : (-t) / l = q at h1 ⊢
  generalize hm : (-t) % l = m at h1 h2 h3
  by_cases hc : -q = 0
  · rw [if_pos hc]
    have hq0 : q = 0 := by omega
    have hm : m = -t := by
      rw [hq0] at h1
      simpa using h1
    have htz : t = 0 := by omega
    refine ⟨le_refl 1, ?_, ?_⟩
    · rw [htz, mul_one]
      omega
    · have hz : l * ((1 : Int) - 1) = 0 := by ring
      rw [hz]
      linarith
  · rw [if_neg hc]
    have hlq : l * -q = t + m := by
      rw [mul_neg]
      omega
    have hone : 1 ≤ -q := by
      by_contra hlt
      push_neg at hlt
      have h5 : -q ≤ -1 := by omega
      have h6 : l * -q ≤ l * (-1) := by
        exact mul_le_mul_of_nonneg_left h5 (le_of_lt hl)
      rw [hlq] at h6
      simp only [mul_neg, mul_one] at h6
      linarith
    refine ⟨hone, ?_, ?_⟩
    · rw [hlq]
      linarith
    · have hsub : l * (-q - 1) = t + m - l := by
        rw [mul_sub, hlq]
        ring
      rw [hsub]
      linarith

/-- Counterexample to claim C7 as stated: a successful response whose
server-supplied total is negative yields negative `pages` — the code
computes `Math.ceil(total / limit) || 1`, which only replaces the
value `0` by 1 and passes other negative ceilings through. -/
theorem C7_pages_negative_counterexample :
    (getDocuments {} (.ok { documents := some [], total := some (-30), limit := some 20 })).pages
      = -1 ∧
    (getDocuments {} (.ok { documents := some [], total := some (-30), limit := some 20 })).pages
      < 1 := by
  constructor <;> decide

/-- Claim C7 (amended): whenever the effective total is nonnegative
and the effective page size is positive — in particular for every
well-formed server response — `pages` is at least 1 (even when total
is 0) and is exactly the ceiling of total/page_size, characterized as
the least cover: `total ≤ page_size * pages` while
`page_size * (pages - 1)` falls short of `max total 1`.  Moreover the
concrete scenario holds: a response of one document with total 1 and
no limit field yields pages 1, page_size 20 (the client default) and a
single item. -/
theorem C7_pages_ceil_with_floor
    (filters : DocumentFilters) (data : ServerDocData)
    (ht : 0 ≤ jsOrInt data.total 0)
    (hl : 0 < jsOrInt data.limit (jsOrInt filters.limit 20)) :
    (1 ≤ (getDocuments filters (.ok data)).pages ∧
     (getDocuments filters (.ok data)).total ≤
       (getDocuments filters (.ok data)).page_size * (getDocuments filters (.ok data)).pages ∧
     (getDocuments filters (.ok data)).page_size * ((getDocuments filters (.ok data)).pages - 1)
       < max (getDocuments filters (.ok data)).total 1) ∧
    (getDocuments {} (.ok { documents := some [⟨1⟩], total := some 1 })).pages = 1 ∧
    (getDocuments {} (.ok { documents := some [⟨1⟩], total := some 1 })).page_size = 20 ∧
    (getDocuments {} (.ok { documents := some [⟨1⟩], total := some 1 })).items.length = 1 := by
  refine ⟨?_, by decide, by decide, by decide⟩
  have h := jsPages_bounds (jsOrInt data.total 0)
    (jsOrInt data.limit (jsOrInt filters.limit 20)) ht hl
  exact h

/-- Witness for C7's amended theorem at the concrete scenario response
itself. -/
theorem C7_pages_ceil_with_floor_witness :
    (1 ≤ (getDocuments {} (.ok { documents := some [⟨1⟩], total := some 1 })).pages ∧
     (getDocuments {} (.ok { documents := some [⟨1⟩], total := some 1 })).total ≤
       (getDocuments {} (.ok { documents := some [⟨1⟩], total := some 1 })).page_size *
         (getDocuments {} (.ok { documents := some [⟨1⟩], total := some 1 })).pages ∧
     (getDocuments {} (.ok { documents := some [⟨1⟩], total := some 1 })).page_size *
         ((getDocuments {} (.ok { documents := some [⟨1⟩], total := some 1 })).pages - 1)
       < max (getDocuments {} (.ok { documents := some [⟨1⟩], total := some 1 })).total 1) ∧
    (getDocuments {} (.ok { documents := some [⟨1⟩], total := some 1 })).pages = 1 ∧
    (getDocuments {} (.ok { documents := some [⟨1⟩], total := some 1 })).page_size = 20 ∧
    (getDocuments {} (.ok { documents := some [⟨1⟩], total := some 1 })).items.length = 1 :=
  C7_pages_ceil_with_floor {} { documents := some [⟨1⟩], total := some 1 }
    (by decide) (by decide)

/-- Claim C8: on every rejected transport outcome (network failure,
non-2xx status, malformed body surfaced at the HTTP boundary) the
list-returning clients do not raise — `getDocuments` returns its fixed
empty envelope and `getAuditLog` the module defaults
`{entries := [], total := 0, page := 1, page_size := 50}` regardless
of any requested limit — while the detail and mutating operations
propagate the error. -/
theorem C8_error_swallowing_vs_propagation :
    (∀ (filters : DocumentFilters) (e : ApiError),
        getDocuments filters (.error e) = EMPTY_RESPONSE) ∧
    (∀ (filters : AuditLogFilters) (e : ApiError),
        getAuditLog filters (.error e) = AUDIT_EMPTY_RESPONSE) ∧
    (∀ e : ApiError, getAuditLog { limit := some 25 } (.error e)
        = { entries := [], total := 0, page := 1, page_size := 50 }) ∧
    (∀ e : ApiError, getDocument (.error e) = .error e) ∧
    (∀ e : ApiError, approveDocument (.error e) = .error e) ∧
    (∀ e : ApiError, deleteDocument (.error e) = .error e) ∧
    (∀ e : ApiError, startCrawl (.error e) = .error e) :=
  ⟨fun _ _ => rfl, fun _ _ => rfl, fun _ => rfl, fun _ => rfl,
   fun _ => rfl, fun _ => rfl, fun _ => rfl⟩

/-- Counterexample to claim C9 as stated: the clients default absent
or falsy fields but perform no clamping, so a server payload carrying
a negative total produces a normalized envelope with negative
`total`. -/
theorem C9_no_clamping_counterexample :
    (getDocuments {} (.ok { total := some (-5) })).total = -5 ∧
    (getDocuments {} (.ok { total := some (-5) })).total < 0 := by
  constructor <;> decide

/-- Claim C9 (amended): the normalized envelopes satisfy `total ≥ 0`
and `page ≥ 1` whenever the server-supplied total is absent or
nonnegative and the page source (the requested page for documents, the
server page for the audit log) is absent or at least 1 — absent and
falsy values are defaulted (total to 0, page to 1), but negative
values pass through unclamped; on rejected transport outcomes both
bounds hold unconditionally. -/
theorem C9_envelope_bounds
    (filters : DocumentFilters) (data : ServerDocData)
    (afilters : AuditLogFilters) (adata : ServerAuditData)
    (ht : ∀ t, data.total = some t → 0 ≤ t)
    (hp : ∀ p, filters.page = some p → 1 ≤ p)
    (hat : ∀ t, adata.total = some t → 0 ≤ t)
    (hap : ∀ p, adata.page = some p → 1 ≤ p) :
    (0 ≤ (getDocuments filters (.ok data)).total ∧
     1 ≤ (getDocuments filters (.ok data)).page) ∧
    (0 ≤ (getAuditLog afilters (.ok adata)).total ∧
     1 ≤ (getAuditLog afilters (.ok adata)).page) ∧
    (∀ e : ApiError,
      0 ≤ (getDocuments filters (.error e)).total ∧
      1 ≤ (getDocuments filters (.error e)).page ∧
      0 ≤ (getAuditLog afilters (.error e)).total ∧
      1 ≤ (getAuditLog afilters (.error e)).page) := by
  refine ⟨⟨?_, ?_⟩, ⟨?_, ?_⟩, fun e => ⟨le_refl 0, le_refl 1, le_refl 0, le_refl 1⟩⟩
  · show 0 ≤ jsOrInt data.total 0
    cases hdt : data.total with
    | none => simp [jsOrInt]
    | some t =>
      have := ht t hdt
      by_cases h0 : t = 0
      · simp [jsOrInt, h0]
      · simp only [jsOrInt, if_neg h0]
        omega
  · show 1 ≤ jsOrInt filters.page 1
    cases hfp : filters.page with
    | none => simp [jsOrInt]
    | some p =>
      have := hp p hfp
      by_cases h0 : p = 0
      · simp [jsOrInt, h0]
      · simp only [jsOrInt, if_neg h0]
        omega
  · show 0 ≤ adata.total.getD AUDIT_EMPTY_RESPONSE.total
    cases hdt : adata.total with
    | none => simp [AUDIT_EMPTY_RESPONSE]
    | some t =>
      have := hat t hdt
      simpa using this
  · show 1 ≤ adata.page.getD AUDIT_EMPTY_RESPONSE.page
    cases hdp : adata.page with
    | none => simp [AUDIT_EMPTY_RESPONSE]
    | some p =>
      have := hap p hdp
      simpa using this

/-- Witness for C9's amended theorem at concrete well-formed
payloads. -/
theorem C9_envelope_bounds_witness :
    (0 ≤ (getDocuments { page := some 2 } (.ok { total := some 41 })).total ∧
     1 ≤ (getDocuments { page := some 2 } (.ok { total := some 41 })).page) ∧
    (0 ≤ (getAuditLog {} (.ok { total := some 7, page := some 1 })).total ∧
     1 ≤ (getAuditLog {} (.ok { total := some 7, page := some 1 })).page) ∧
    (∀ e : ApiError,
      0 ≤ (getDocuments { page := some 2 } (.error e)).total ∧
      1 ≤ (getDocuments { page := some 2 } (.error e)).page ∧
      0 ≤ (getAuditLog {} (.error e)).total ∧
      1 ≤ (getAuditLog {} (.error e)).page) :=
  C9_envelope_bounds { page := some 2 } { total := some 41 } {}
    { total := some 7, page := some 1 }
    (by intro t h; cases h; omega)
    (by intro p h; cases h; omega)
    (by intro t h; cases h; omega)
    (by intro p h; cases h; omega)

/-- Under the handle invariant, clearing the currently referenced
interval leaves no live interval. -/
theorem clearCurrent_eq_nil (s : PollerState) (h : RefInv s) : clearCurrent s = [] := by
  unfold clearCurrent
  cases hp : s.pollRef with
  | none =>
    cases ha : s.active with
    | nil => rfl
    | cons p rest =>
      have hm := h p (by rw [ha]; exact List.mem_cons_self p rest)
      rw [hp] at hm
      cases hm
  | some hdl =>
    unfold clearInterval
    rw [List.filter_eq_nil_iff]
    intro p hpmem
    have hm := h p hpmem
    rw [hp] at hm
    cases hm
    simp

/-- With no live interval, clearing the current one changes nothing. -/
theorem clearCurrent_of_nil (s : PollerState) (h : s.active = []) : clearCurrent s = [] := by
  unfold clearCurrent clearInterval
  cases s.pollRef <;> simp [h]

/-- The handle invariant holds initially. -/
theorem initPoller_RefInv : RefInv initPoller := by
  intro p hp
  cases hp

/-- The handle invariant is preserved by every event. -/
theorem step_RefInv (s : PollerState) (e : PollEvent) (h : RefInv s) :
    RefInv (step s e) := by
  cases e with
  | start cid =>
    intro p hp
    simp only [step] at hp ⊢
    rw [clearCurrent_eq_nil s h] at hp
    cases hp with
    | head => rfl
    | tail _ hm => cases hm
  | fire hdl cid =>
    intro p hp
    simp only [step] at hp ⊢
    by_cases hin : (hdl, cid) ∈ s.active
    · rw [if_pos hin] at hp ⊢
      exact h p hp
    · rw [if_neg hin] at hp ⊢
      exact h p hp
  | firstOk tok cid resp =>
    intro p hp
    simp only [step] at hp ⊢
    by_cases hin : (tok, cid) ∈ s.inflightFirst
    · rw [if_pos hin] at hp ⊢
      exact h p hp
    · rw [if_neg hin] at hp ⊢
      exact h p hp
  | firstFail tok cid =>
    intro p hp
    simp only [step] at hp ⊢
    by_cases hin : (tok, cid) ∈ s.inflightFirst
    · rw [if_pos hin] at hp ⊢
      exact h p hp
    · rw [if_neg hin] at hp ⊢
      exact h p hp
  | tickOk tok cid resp =>
    intro p hp
    simp only [step] at hp ⊢
    by_cases hin : (tok, cid) ∈ s.inflightTick
    · rw [if_pos hin] at hp ⊢
      by_cases ht : resp.status.isTerminal = true
      · rw [if_pos ht] at hp ⊢
        rw [clearCurrent_eq_nil s h] at hp
        cases hp
      · rw [if_neg ht] at hp ⊢
        exact h p hp
    · rw [if_neg hin] at hp ⊢
      exact h p hp
  | tickFail tok cid =>
    intro p hp
    simp only [step] at hp ⊢
    by_cases hin : (tok, cid) ∈ s.inflightTick
    · rw [if_pos hin] at hp ⊢
      rw [clearCurrent_eq_nil s h] at hp
      cases hp
    · rw [if_neg hin] at hp ⊢
      exact h p hp
  | cleanup =>
    intro p hp
    simp only [step] at hp ⊢
    rw [clearCurrent_eq_nil s h] at hp
    cases hp

/-- The handle invariant holds along every run. -/
theorem run_RefInv (s : PollerState) (tr : List PollEvent) (h : RefInv s) :
    RefInv (run s tr) := by
  induction tr generalizing s with
  | nil => exact h
  | cons e es ih => exact ih (step s e) (step_RefInv s e h)

/-- With no live interval, any event that is not a `pollStatus` call
issues no fetch and leaves the interval set empty: resolutions of
still-pending fetches and cleanups never fetch, and a cleared interval
never fires. -/
theorem step_no_start_no_fetch (s : PollerState) (e : PollEvent)
    (ha : s.active = []) (he : e.isStart = false) :
    (step s e).fetchCount = s.fetchCount ∧ (step s e).active = [] := by
  cases e with
  | start cid => simp [PollEvent.isStart] at he
  | fire hdl cid =>
    have hin : (hdl, cid) ∉ s.active := by
      rw [ha]
      exact List.not_mem_nil (hdl, cid)
    simp only [step]
    rw [if_neg hin]
    exact ⟨rfl, ha⟩
  | firstOk tok cid resp =>
    simp only [step]
    by_cases hin : (tok, cid) ∈ s.inflightFirst
    · rw [if_pos hin]
      exact ⟨rfl, ha⟩
    · rw [if_neg hin]
      exact ⟨rfl, ha⟩
  | firstFail tok cid =>
    simp only [step]
    by_cases hin : (tok, cid) ∈ s.inflightFirst
    · rw [if_pos hin]
      exact ⟨rfl, ha⟩
    · rw [if_neg hin]
      exact ⟨rfl, ha⟩
  | tickOk tok cid resp =>
    simp only [step]
    by_cases hin : (tok, cid) ∈ s.inflightTick
    · rw [if_pos hin]
      by_cases ht : resp.status.isTerminal = true
      · rw [if_pos ht]
        exact ⟨rfl, clearCurrent_of_nil s ha⟩
      · rw [if_neg ht]
        exact ⟨rfl, ha⟩
    · rw [if_neg hin]
      exact ⟨rfl, ha⟩
  | tickFail tok cid =>
    simp only [step]
    by_cases hin : (tok, cid) ∈ s.inflightTick
    · rw [if_pos hin]
      exact ⟨rfl, clearCurrent_of_nil s ha⟩
    · rw [if_neg hin]
      exact ⟨rfl, ha⟩
  | cleanup =>
    exact ⟨rfl, clearCurrent_of_nil s ha⟩

/-- With no live interval, a whole run containing no `pollStatus` call
issues no fetch and keeps the interval set empty. -/
theorem run_no_start_no_fetch (tr : List PollEvent) (s : PollerState)
    (ha : s.active = []) (he : ∀ e ∈ tr, e.isStart = false) :
    (run s tr).fetchCount = s.fetchCount ∧ (run s tr).active = [] := by
  induction tr generalizing s with
  | nil => exact ⟨rfl, ha⟩
  | cons e es ih =>
    have h1 := step_no_start_no_fetch s e ha (he e (List.mem_cons_self e es))
    have h2 := ih (step s e) h1.2 (fun x hx => he x (List.mem_cons_of_mem e hx))
    exact ⟨h2.1.trans h1.1, h2.2⟩

/-- A pending tick that settles with a terminal status runs lines
63-67: the snapshot is replaced and the current interval cleared. -/
theorem step_resolveTick_terminal (s : PollerState) (tok cid : Nat)
    (r : CrawlStatusResponse) (hmem : (tok, cid) ∈ s.inflightTick)
    (hterm : r.status.isTerminal = true) :
    step s (.tickOk tok cid r) =
      { s with inflightTick := s.inflightTick.filter (fun p => p.1 ≠ tok),
               snapshot := some r,
               active := clearCurrent s } := by
  simp only [step]
  rw [if_pos hmem, if_pos hterm]

/-- A pending tick that settles with a transport failure runs the
catch on lines 68-70: the current interval is cleared and the snapshot
is untouched. -/
theorem step_resolveTick_fail (s : PollerState) (tok cid : Nat)
    (hmem : (tok, cid) ∈ s.inflightTick) :
    step s (.tickFail tok cid) =
      { s with inflightTick := s.inflightTick.filter (fun p => p.1 ≠ tok),
               active := clearCurrent s } := by
  simp only [step]
  rw [if_pos hmem]

/-- Counterexample to claim C2 as stated: after a tick fetches the
terminal status `completed` (which cancels the schedule), calling
`pollStatus` again with the same job id issues a further status fetch
— the poller does not latch its terminal state. -/
theorem C2_restart_refetches_counterexample :
    (run initPoller [.start 1, .fire 0 1, .tickOk 1 1 ⟨1, .completed⟩]).snapshot
        = some ⟨1, .completed⟩ ∧
    (run initPoller [.start 1, .fire 0 1, .tickOk 1 1 ⟨1, .completed⟩]).active = [] ∧
    (run initPoller [.start 1, .fire 0 1, .tickOk 1 1 ⟨1, .completed⟩, .start 1]).fetchCount
        = (run initPoller [.start 1, .fire 0 1, .tickOk 1 1 ⟨1, .completed⟩]).fetchCount
            + 1 := by
  refine ⟨by decide, by decide, by decide⟩

/-- Claim C2 (amended): in every polling run, once a tick's fetched
status is terminal the poller cancels its repeating schedule: no live
interval remains, the snapshot holds the terminal response, the step
itself issues no fetch, and no further status fetch occurs for as long
as `pollStatus` is not called again — a renewed `start`, even with the
same job id, begins a fresh polling run with fresh fetches. -/
theorem C2_terminal_tick_cancels_schedule
    (tr : List PollEvent) (tok cid : Nat) (r : CrawlStatusResponse)
    (hmem : (tok, cid) ∈ (run initPoller tr).inflightTick)
    (hterm : r.status.isTerminal = true) :
    (step (run initPoller tr) (.tickOk tok cid r)).snapshot = some r ∧
    (step (run initPoller tr) (.tickOk tok cid r)).active = [] ∧
    (step (run initPoller tr) (.tickOk tok cid r)).fetchCount
        = (run initPoller tr).fetchCount ∧
    (∀ tr2, (∀ e ∈ tr2, e.isStart = false) →
      (run (step (run initPoller tr) (.tickOk tok cid r)) tr2).fetchCount
          = (run initPoller tr).fetchCount ∧
      (run (step (run initPoller tr) (.tickOk tok cid r)) tr2).active = []) := by
  have hinv : RefInv (run initPoller tr) := run_RefInv initPoller tr initPoller_RefInv
  have hclear : clearCurrent (run initPoller tr) = [] := clearCurrent_eq_nil _ hinv
  rw [step_resolveTick_terminal (run initPoller tr) tok cid r hmem hterm]
  refine ⟨rfl, hclear, rfl, ?_⟩
  intro tr2 hns
  exact run_no_start_no_fetch tr2 _ hclear hns

/-- Witness for C2's amended theorem on the concrete run start, fire,
terminal tick. -/
theorem C2_terminal_tick_cancels_schedule_witness :
    (step (run initPoller [.start 1, .fire 0 1]) (.tickOk 1 1 ⟨1, .completed⟩)).snapshot
        = some ⟨1, .completed⟩ ∧
    (step (run initPoller [.start 1, .fire 0 1]) (.tickOk 1 1 ⟨1, .completed⟩)).active = [] ∧
    (step (run initPoller [.start 1, .fire 0 1]) (.tickOk 1 1 ⟨1, .completed⟩)).fetchCount
        = (run initPoller [.start 1, .fire 0 1]).fetchCount ∧
    (∀ tr2, (∀ e ∈ tr2, e.isStart = false) →
      (run (step (run initPoller [.start 1, .fire 0 1]) (.tickOk 1 1 ⟨1, .completed⟩))
          tr2).fetchCount = (run initPoller [.start 1, .fire 0 1]).fetchCount ∧
      (run (step (run initPoller [.start 1, .fire 0 1]) (.tickOk 1 1 ⟨1, .completed⟩))
          tr2).active = []) :=
  C2_terminal_tick_cancels_schedule [.start 1, .fire 0 1] 1 1 ⟨1, .completed⟩
    (by decide) (by decide)

/-- Counterexample to claim C3 as stated: a tick already in flight
when the cleanup runs still writes its result into the stored snapshot
when it settles — cancellation stops the schedule but not a pending
continuation, so a state mutation occurs after teardown returned. -/
theorem C3_inflight_tick_mutates_after_cleanup :
    (run initPoller [.start 1, .fire 0 1, .cleanup]).active = [] ∧
    (run initPoller [.start 1, .fire 0 1, .cleanup]).snapshot = none ∧
    (run initPoller [.start 1, .fire 0 1, .cleanup, .tickOk 1 1 ⟨1, .running⟩]).snapshot
        = some ⟨1, .running⟩ := by
  refine ⟨by decide, by decide, by decide⟩

/-- Claim C3 (amended): the cleanup is a total synchronous step that
may run at any point — including before any poll started — and any
number of times: it cancels every live interval, changes neither the
snapshot nor the fetch count, is idempotent, and afterwards no further
fetch is issued and no interval comes alive for as long as
`pollStatus` is not called again; a fetch already in flight at
cancellation, however, may still write its result when it settles. -/
theorem C3_cleanup_cancels_schedule (tr : List PollEvent) :
    (step (run initPoller tr) .cleanup).active = [] ∧
    (step (run initPoller tr) .cleanup).snapshot = (run initPoller tr).snapshot ∧
    (step (run initPoller tr) .cleanup).fetchCount = (run initPoller tr).fetchCount ∧
    step (step (run initPoller tr) .cleanup) .cleanup = step (run initPoller tr) .cleanup ∧
    (∀ tr2, (∀ e ∈ tr2, e.isStart = false) →
      (run (step (run initPoller tr) .cleanup) tr2).fetchCount
          = (run initPoller tr).fetchCount ∧
      (run (step (run initPoller tr) .cleanup) tr2).active = []) := by
  have hinv : RefInv (run initPoller tr) := run_RefInv initPoller tr initPoller_RefInv
  have hclear : clearCurrent (run initPoller tr) = [] := clearCurrent_eq_nil _ hinv
  have ha : (step (run initPoller tr) .cleanup).active = [] := hclear
  refine ⟨ha, rfl, rfl, ?_, ?_⟩
  · show { step (run initPoller tr) .cleanup with
        active := clearCurrent (step (run initPoller tr) .cleanup) }
      = step (run initPoller tr) .cleanup
    rw [clearCurrent_of_nil _ ha, ← ha]
  · intro tr2 hns
    exact run_no_start_no_fetch tr2 _ ha hns

/-- Witness for C3's amended theorem on the concrete run start, fire,
then cleanup. -/
theorem C3_cleanup_cancels_schedule_witness :
    (step (run initPoller [.start 1, .fire 0 1]) .cleanup).active = [] ∧
    (step (run initPoller [.start 1, .fire 0 1]) .cleanup).snapshot
        = (run initPoller [.start 1, .fire 0 1]).snapshot ∧
    (step (run initPoller [.start 1, .fire 0 1]) .cleanup).fetchCount
        = (run initPoller [.start 1, .fire 0 1]).fetchCount ∧
    step (step (run initPoller [.start 1, .fire 0 1]) .cleanup) .cleanup
        = step (run initPoller [.start 1, .fire 0 1]) .cleanup ∧
    (∀ tr2, (∀ e ∈ tr2, e.isStart = false) →
      (run (step (run initPoller [.start 1, .fire 0 1]) .cleanup) tr2).fetchCount
          = (run initPoller [.start 1, .fire 0 1]).fetchCount ∧
      (run (step (run initPoller [.start 1, .fire 0 1]) .cleanup) tr2).active = []) :=
  C3_cleanup_cancels_schedule [.start 1, .fire 0 1]

/-- Claim C4: in every polling run, a tick whose status fetch fails at
the transport level cancels the repeating schedule with no retry: no
live interval remains, the last stored snapshot is retained unchanged,
the failing step issues no fetch, and no further fetch occurs for as
long as `pollStatus` is not called again. -/
theorem C4_failed_tick_ends_session
    (tr : List PollEvent) (tok cid : Nat)
    (hmem : (tok, cid) ∈ (run initPoller tr).inflightTick) :
    (step (run initPoller tr) (.tickFail tok cid)).active = [] ∧
    (step (run initPoller tr) (.tickFail tok cid)).snapshot = (run initPoller tr).snapshot ∧
    (step (run initPoller tr) (.tickFail tok cid)).fetchCount
        = (run initPoller tr).fetchCount ∧
    (∀ tr2, (∀ e ∈ tr2, e.isStart = false) →
      (run (step (run initPoller tr) (.tickFail tok cid)) tr2).fetchCount
          = (run initPoller tr).fetchCount ∧
      (run (step (run initPoller tr) (.tickFail tok cid)) tr2).active = []) := by
  have hinv : RefInv (run initPoller tr) := run_RefInv initPoller tr initPoller_RefInv
  have hclear : clearCurrent (run initPoller tr) = [] := clearCurrent_eq_nil _ hinv
  rw [step_resolveTick_fail (run initPoller tr) tok cid hmem]
  refine ⟨hclear, rfl, rfl, ?_⟩
  intro tr2 hns
  exact run_no_start_no_fetch tr2 _ hclear hns

/-- Witness for C4 on the concrete run start, fire, then failing
tick. -/
theorem C4_failed_tick_ends_session_witness :
    (step (run initPoller [.start 1, .fire 0 1]) (.tickFail 1 1)).active = [] ∧
    (step (run initPoller [.start 1, .fire 0 1]) (.tickFail 1 1)).snapshot
        = (run initPoller [.start 1, .fire 0 1]).snapshot ∧
    (step (run initPoller [.start 1, .fire 0 1]) (.tickFail 1 1)).fetchCount
        = (run initPoller [.start 1, .fire 0 1]).fetchCount ∧
    (∀ tr2, (∀ e ∈ tr2, e.isStart = false) →
      (run (step (run initPoller [.start 1, .fire 0 1]) (.tickFail 1 1)) tr2).fetchCount
          = (run initPoller [.start 1, .fire 0 1]).fetchCount ∧
      (run (step (run initPoller [.start 1, .fire 0 1]) (.tickFail 1 1)) tr2).active = []) :=
  C4_failed_tick_ends_session [.start 1, .fire 0 1] 1 1 (by decide)

end PolicyCheck
